import Mathlib

/-!
Verification development for the maplab depth-map integration core
(src/algorithms/dense-reconstruction/depth_integration/src/depth-map-integration.cc).

The C++ code is shallowly embedded: rigid transforms (aslam::Transformation)
become rational affine maps, the two integration drivers become pure Lean
functions that return the trace of fusion-callback invocations together with
the control-flow outcome (normal completion, user cancellation, or a fatal
CHECK / LOG(FATAL) abort), and the external collaborators (sensor manager,
resource store, pose interpolator, sigint breaker) become function-valued
environment fields.
-/

namespace DepthIntegration

/-- Rational 3-vector, the translation part of a rigid transform. -/
structure Vec3 where
  x : ℚ
  y : ℚ
  z : ℚ
deriving DecidableEq

def Vec3.add (a b : Vec3) : Vec3 := ⟨a.x + b.x, a.y + b.y, a.z + b.z⟩

def Vec3.neg (a : Vec3) : Vec3 := ⟨-a.x, -a.y, -a.z⟩

def Vec3.zero : Vec3 := ⟨0, 0, 0⟩

/-- Rational 3x3 matrix, the rotation part of a rigid transform. -/
structure Mat3 where
  m11 : ℚ
  m12 : ℚ
  m13 : ℚ
  m21 : ℚ
  m22 : ℚ
  m23 : ℚ
  m31 : ℚ
  m32 : ℚ
  m33 : ℚ
deriving DecidableEq

def Mat3.id : Mat3 := ⟨1, 0, 0, 0, 1, 0, 0, 0, 1⟩

def Mat3.mul (a b : Mat3) : Mat3 :=
  ⟨a.m11 * b.m11 + a.m12 * b.m21 + a.m13 * b.m31,
   a.m11 * b.m12 + a.m12 * b.m22 + a.m13 * b.m32,
   a.m11 * b.m13 + a.m12 * b.m23 + a.m13 * b.m33,
   a.m21 * b.m11 + a.m22 * b.m21 + a.m23 * b.m31,
   a.m21 * b.m12 + a.m22 * b.m22 + a.m23 * b.m32,
   a.m21 * b.m13 + a.m22 * b.m23 + a.m23 * b.m33,
   a.m31 * b.m11 + a.m32 * b.m21 + a.m33 * b.m31,
   a.m31 * b.m12 + a.m32 * b.m22 + a.m33 * b.m32,
   a.m31 * b.m13 + a.m32 * b.m23 + a.m33 * b.m33⟩

def Mat3.mulVec (a : Mat3) (v : Vec3) : Vec3 :=
  ⟨a.m11 * v.x + a.m12 * v.y + a.m13 * v.z,
   a.m21 * v.x + a.m22 * v.y + a.m23 * v.z,
   a.m31 * v.x + a.m32 * v.y + a.m33 * v.z⟩

def Mat3.det (a : Mat3) : ℚ :=
  a.m11 * (a.m22 * a.m33 - a.m23 * a.m32)
    - a.m12 * (a.m21 * a.m33 - a.m23 * a.m31)
    + a.m13 * (a.m21 * a.m32 - a.m22 * a.m31)

/-- Matrix inverse via the adjugate.  Rigid-transform rotations are always
invertible; on a singular matrix (outside the rigid subset the source works
with) we return the identity so the function stays total. -/
def Mat3.inv (a : Mat3) : Mat3 :=
  let d := a.det
  if d = 0 then Mat3.id
  else
    ⟨(a.m22 * a.m33 - a.m23 * a.m32) / d,
     (a.m13 * a.m32 - a.m12 * a.m33) / d,
     (a.m12 * a.m23 - a.m13 * a.m22) / d,
     (a.m23 * a.m31 - a.m21 * a.m33) / d,
     (a.m11 * a.m33 - a.m13 * a.m31) / d,
     (a.m13 * a.m21 - a.m11 * a.m23) / d,
     (a.m21 * a.m32 - a.m22 * a.m31) / d,
     (a.m12 * a.m31 - a.m11 * a.m32) / d,
     (a.m11 * a.m22 - a.m12 * a.m21) / d⟩

/-- A rigid transform (aslam::Transformation): x maps to R x + t. -/
structure Transform where
  R : Mat3
  t : Vec3
deriving DecidableEq

/-- Composition T_A_B * T_B_C (function composition in the aslam frame
convention): (R1, t1) after (R2, t2) is (R1 R2, R1 t2 + t1). -/
def Transform.comp (f g : Transform) : Transform :=
  ⟨f.R.mul g.R, (f.R.mulVec g.t).add f.t⟩

def Transform.idT : Transform := ⟨Mat3.id, Vec3.zero⟩

/-- aslam::Transformation::inverse: x maps to R.inv x - R.inv t. -/
def Transform.inv (f : Transform) : Transform :=
  ⟨f.R.inv, (f.R.inv.mulVec f.t).neg⟩

/-- backend::ResourceType, restricted to the members this translation unit
touches, plus one representative unsupported member. -/
inductive ResourceType
  | kRawDepthMap
  | kOptimizedDepthMap
  | kImageForDepthMap
  | kColorImageForDepthMap
  | kRawImage
  | kPointCloudXYZ
deriving DecidableEq

/-- Modelled from the spec: kSupportedDepthMapInputTypes is declared in
depth-integration.h, which is not part of the provided sources; the spec
states only the raw and the optimized depth map kinds are supported. -/
def kSupportedDepthMapInputTypes : List ResourceType :=
  [ResourceType.kRawDepthMap, ResourceType.kOptimizedDepthMap]

/-- aslam::Camera: the fields the integrator reads (rolling-shutter line
count and per-line delay), plus a tag standing for identity/intrinsics. -/
structure Camera where
  numberOfLines : Nat
  lineDelayNanoSeconds : Int
  tag : Nat
deriving DecidableEq

/-- One fusion-callback invocation: exactly the arguments the C++
integration_function receives (pose vector, depth map, companion image --
an empty cv::Mat is `none` -- and the camera model).  Depth maps and images
are opaque payloads. -/
structure Dispatch where
  poses : List Transform
  depthMap : Nat
  image : Option Nat
  camera : Camera
deriving DecidableEq

/-- Control-flow outcome of an integration run: normal completion, an early
return after the sigint breaker fired, or a CHECK / LOG(FATAL) abort. -/
inductive Flow
  | ok
  | cancelled
  | fatalErr
deriving DecidableEq

/-- Result of (part of) an integration run: the fusion-callback invocations
issued so far in order, the running count of sigint-breaker polls, and the
control-flow outcome. -/
structure Result where
  dispatches : List Dispatch
  polls : Nat
  flow : Flow
deriving DecidableEq

/-- Result of processing one item (one vertex frame or one sensor resource):
dispatched to the callback, skipped benignly, or fatal abort. -/
inductive StepResult
  | dispatched (d : Dispatch)
  | skipped
  | fatalStep
deriving DecidableEq

/-- Configuration and flag surface read by both drivers, with the sigint
breaker modelled as a pure poll stream (poll index to isBreakRequested). -/
structure Config where
  timestampShiftNs : Int
  enableRollingShutterCompensation : Bool
  sigintEnabled : Bool
  breaker : Nat → Bool

/-- Per-sensor data the free-running path reads through the sensor manager:
getSensor_T_B_S, getSensorType == kNCamera, getNumCameras, get_T_C_B(0) and
getCameraShared(0). -/
structure SensorData where
  T_B_S : Transform
  isNCamera : Bool
  numCameras : Nat
  T_C_B : Transform
  camera : Camera

/-- Per-mission data the free-running path reads: T_G_M, the trajectory
support [min_timestamp_ns, max_timestamp_ns] (none when the vertex-to-time
map is empty), getAllSensorResourceIdsOfType (none models the nullptr
return), the batched pose interpolator and the sensor resource store. -/
structure MissionDataOpt where
  T_G_M : Transform
  trajectory : Option (Int × Int)
  sensorResources : ResourceType → Option (List (Nat × List (Int × Nat)))
  getPosesAtTime : List Int → List Transform
  getSensorResource : ResourceType → Nat → Int → Option Nat

/-- Environment of the free-running driver. -/
structure OptEnv where
  sensors : Nat → SensorData
  missions : Nat → MissionDataOpt

/-- std::max(min_ns, std::min(max_ns, t)) -- the clamp at lines 304-306. -/
def clampTs (minNs maxNs t : Int) : Int := max minNs (min maxNs t)

/-- Lines 288-310: build the batched timestamp array for one sensor.  Each
resource contributes numLines entries; the running timestamp starts at
raw + shift and is incremented by the line delay per line, each entry
clamped into [minNs, maxNs]. -/
def buildResourceTimestamps (shiftNs lineDelayNs : Int) (numLines : Nat)
    (minNs maxNs : Int) : List (Int × Nat) → List Int
  | [] => []
  | sr :: rest =>
      (List.range numLines).map
        (fun k : Nat =>
          clampTs minNs maxNs (sr.1 + shiftNs + (k : Int) * lineDelayNs))
        ++ buildResourceTimestamps shiftNs lineDelayNs numLines minNs maxNs rest

/-- Lines 344-410, the body of one resource iteration after the sigint poll:
read corrected_timestamp_ns from the batched array at the resource start
index, slice out numLines poses composing T_G_M * T_M_B * T_B_C per line
(CHECK_LT on every access), skip when corrected_timestamp_ns is outside
[minNs, maxNs], then look up the depth map (LOG(FATAL) when absent) and the
companion image (dedicated grayscale, then dedicated color), and dispatch. -/
def optResourceStep (md : MissionDataOpt) (sensorId : Nat)
    (inputType : ResourceType) (camera : Camera) (numLines : Nat)
    (minNs maxNs : Int) (T_G_M T_B_C : Transform)
    (resourceTimestamps : List Int) (posesMB : List Transform)
    (total idx : Nat) (timestampNs : Int) : StepResult :=
  let correctedTimestampNs := resourceTimestamps.getD idx 0
  if 0 < numLines ∧ ¬ idx + numLines ≤ total then StepResult.fatalStep
  else
    let vec := (List.range numLines).map
      (fun k => (T_G_M.comp (posesMB.getD (idx + k) Transform.idT)).comp T_B_C)
    if correctedTimestampNs < minNs ∨ maxNs < correctedTimestampNs then
      StepResult.skipped
    else
      match inputType with
      | ResourceType.kRawDepthMap | ResourceType.kOptimizedDepthMap =>
        match md.getSensorResource inputType sensorId timestampNs with
        | none => StepResult.fatalStep
        | some dm =>
          let image :=
            (md.getSensorResource ResourceType.kImageForDepthMap sensorId
              timestampNs).orElse
              (fun _ => md.getSensorResource ResourceType.kColorImageForDepthMap
                sensorId timestampNs)
          StepResult.dispatched ⟨vec, dm, image, camera⟩
      | _ => StepResult.fatalStep

/-- Lines 328-412: the second walk over the resource buffer.  Per iteration:
CHECK_LT(idx, total), then (when enabled) one sigint-breaker poll with an
early return on break, then the per-resource body; idx advances by numLines
whether the body dispatched or skipped. -/
def processOptResources (cfg : Config) (md : MissionDataOpt) (sensorId : Nat)
    (inputType : ResourceType) (camera : Camera) (numLines : Nat)
    (minNs maxNs : Int) (T_G_M T_B_C : Transform)
    (resourceTimestamps : List Int) (posesMB : List Transform) (total : Nat) :
    List (Int × Nat) → Nat → Nat → Result
  | [], _, polls => ⟨[], polls, Flow.ok⟩
  | sr :: rest, idx, polls =>
      if idx < total then
        if cfg.sigintEnabled then
          if cfg.breaker polls then ⟨[], polls + 1, Flow.cancelled⟩
          else
            match optResourceStep md sensorId inputType camera numLines minNs
              maxNs T_G_M T_B_C resourceTimestamps posesMB total idx sr.1 with
            | StepResult.dispatched d =>
                let r := processOptResources cfg md sensorId inputType camera
                  numLines minNs maxNs T_G_M T_B_C resourceTimestamps posesMB
                  total rest (idx + numLines) (polls + 1)
                ⟨d :: r.dispatches, r.polls, r.flow⟩
            | StepResult.skipped =>
                processOptResources cfg md sensorId inputType camera numLines
                  minNs maxNs T_G_M T_B_C resourceTimestamps posesMB total rest
                  (idx + numLines) (polls + 1)
            | StepResult.fatalStep => ⟨[], polls + 1, Flow.fatalErr⟩
        else
          match optResourceStep md sensorId inputType camera numLines minNs
            maxNs T_G_M T_B_C resourceTimestamps posesMB total idx sr.1 with
          | StepResult.dispatched d =>
              let r := processOptResources cfg md sensorId inputType camera
                numLines minNs maxNs T_G_M T_B_C resourceTimestamps posesMB
                total rest (idx + numLines) polls
              ⟨d :: r.dispatches, r.polls, r.flow⟩
          | StepResult.skipped =>
              processOptResources cfg md sensorId inputType camera numLines
                minNs maxNs T_G_M T_B_C resourceTimestamps posesMB total rest
                (idx + numLines) polls
          | StepResult.fatalStep => ⟨[], polls, Flow.fatalErr⟩
      else ⟨[], polls, Flow.fatalErr⟩

/-- Lines 240-412, the per-sensor body: sensor-manager checks (the sensor is
an NCamera with exactly one camera), rolling-shutter parameters, extrinsics
T_B_C = T_B_Cn * get_T_C_B(0).inv, the batched timestamp array, one batched
interpolation call with CHECK_EQ on the result length, then the resource
walk. -/
def integrateSensor (cfg : Config) (env : OptEnv) (md : MissionDataOpt)
    (inputType : ResourceType) (minNs maxNs : Int) (polls : Nat)
    (sensorId : Nat) (resourceBuffer : List (Int × Nat)) : Result :=
  let sd := env.sensors sensorId
  let T_B_Cn := sd.T_B_S
  if sd.isNCamera then
    if sd.numCameras = 1 then
      let numLines :=
        if cfg.enableRollingShutterCompensation then sd.camera.numberOfLines
        else 1
      let lineDelayNs :=
        if cfg.enableRollingShutterCompensation then
          sd.camera.lineDelayNanoSeconds
        else 0
      let T_Cn_C := sd.T_C_B.inv
      let T_B_C := T_B_Cn.comp T_Cn_C
      let total := resourceBuffer.length * numLines
      let resourceTimestamps := buildResourceTimestamps cfg.timestampShiftNs
        lineDelayNs numLines minNs maxNs resourceBuffer
      let posesMB := md.getPosesAtTime resourceTimestamps
      if posesMB.length = total then
        processOptResources cfg md sensorId inputType sd.camera numLines minNs
          maxNs md.T_G_M T_B_C resourceTimestamps posesMB total resourceBuffer
          0 polls
      else ⟨[], polls, Flow.fatalErr⟩
    else ⟨[], polls, Flow.fatalErr⟩
  else ⟨[], polls, Flow.fatalErr⟩

/-- Lines 240-413: walk the sensors that own resources of the requested
type, stopping on cancellation or a fatal abort. -/
def processOptSensors (cfg : Config) (env : OptEnv) (md : MissionDataOpt)
    (inputType : ResourceType) (minNs maxNs : Int) :
    List (Nat × List (Int × Nat)) → Nat → Result
  | [], polls => ⟨[], polls, Flow.ok⟩
  | e :: rest, polls =>
      let r := integrateSensor cfg env md inputType minNs maxNs polls e.1 e.2
      match r.flow with
      | Flow.ok =>
          let r2 := processOptSensors cfg env md inputType minNs maxNs rest
            r.polls
          ⟨r.dispatches ++ r2.dispatches, r2.polls, r2.flow⟩
      | _ => r

/-- Lines 201-413, one mission of the free-running path: skip the mission
when the vertex-to-time map is empty or there are no sensor resources of the
requested type, otherwise process all its sensors. -/
def processOptMission (cfg : Config) (env : OptEnv)
    (inputType : ResourceType) (missionId : Nat) (polls : Nat) : Result :=
  let md := env.missions missionId
  match md.trajectory with
  | none => ⟨[], polls, Flow.ok⟩
  | some (minNs, maxNs) =>
      match md.sensorResources inputType with
      | none => ⟨[], polls, Flow.ok⟩
      | some sensorEntries =>
          processOptSensors cfg env md inputType minNs maxNs sensorEntries
            polls

/-- Mission loop of the free-running driver. -/
def processOptMissions (cfg : Config) (env : OptEnv)
    (inputType : ResourceType) : List Nat → Nat → Result
  | [], polls => ⟨[], polls, Flow.ok⟩
  | m :: rest, polls =>
      let r := processOptMission cfg env inputType m polls
      match r.flow with
      | Flow.ok =>
          let r2 := processOptMissions cfg env inputType rest r.polls
          ⟨r.dispatches ++ r2.dispatches, r2.polls, r2.flow⟩
      | _ => r

/-- Lines 177-415: integrateAllOptionalSensorDepthMapResourcesOfTypeImpl.
The CHECK on the supported depth types precedes everything else. -/
def integrateAllOptionalSensorDepthMapResourcesOfTypeImpl (cfg : Config)
    (env : OptEnv) (missionIds : List Nat) (inputType : ResourceType) :
    Result :=
  if inputType ∈ kSupportedDepthMapInputTypes then
    processOptMissions cfg env inputType missionIds 0
  else ⟨[], 0, Flow.fatalErr⟩

/-- aslam::NCamera as read by the frame-attached path: per-frame camera
extrinsics get_T_C_B(frame_idx) and camera model getCamera(frame_idx). -/
structure NCameraData where
  T_C_B : Nat → Transform
  camera : Nat → Camera

/-- vi_map::Vertex as read by the frame-attached path: its pose get_T_M_I,
numFrames, and the per-frame resource lookups getFrameResource(vertex,
frame_idx, type). -/
structure VertexData where
  T_M_I : Transform
  numFrames : Nat
  frameStore : ResourceType → Nat → Option Nat

/-- Per-mission data of the frame-attached path: hasNCamera, the ncamera and
its rig extrinsics T_B_Cn, the baseframe transform T_G_M and the vertices in
graph order. -/
structure MissionDataFrame where
  hasNCamera : Bool
  T_B_Cn : Transform
  T_G_M : Transform
  ncamera : NCameraData
  vertices : List VertexData

/-- Environment of the frame-attached driver. -/
structure FrameEnv where
  missions : Nat → MissionDataFrame

/-- Lines 94-141, one frame of one vertex: compose
T_G_C = T_G_B * (T_B_Cn * get_T_C_B(frame_idx).inv), look up the depth map
(skip the frame when absent), resolve the companion image (dedicated
grayscale, then raw grayscale) and dispatch a single-element pose vector. -/
def frameStep (inputType : ResourceType) (ncam : NCameraData)
    (T_G_B T_B_Cn : Transform) (vtx : VertexData) (frameIdx : Nat) :
    StepResult :=
  let T_Cn_C := (ncam.T_C_B frameIdx).inv
  let T_B_C := T_B_Cn.comp T_Cn_C
  let T_G_C := T_G_B.comp T_B_C
  match inputType with
  | ResourceType.kRawDepthMap | ResourceType.kOptimizedDepthMap =>
    match vtx.frameStore inputType frameIdx with
    | none => StepResult.skipped
    | some dm =>
      let image :=
        (vtx.frameStore ResourceType.kImageForDepthMap frameIdx).orElse
          (fun _ => vtx.frameStore ResourceType.kRawImage frameIdx)
      StepResult.dispatched ⟨[T_G_C], dm, image, ncam.camera frameIdx⟩
  | _ => StepResult.fatalStep

/-- Frame loop of one vertex (lines 94-142), over the given frame indices. -/
def processFrames (inputType : ResourceType) (ncam : NCameraData)
    (T_G_B T_B_Cn : Transform) (vtx : VertexData) :
    List Nat → List Dispatch × Flow
  | [] => ([], Flow.ok)
  | f :: rest =>
      match frameStep inputType ncam T_G_B T_B_Cn vtx f with
      | StepResult.dispatched d =>
          let r := processFrames inputType ncam T_G_B T_B_Cn vtx rest
          (d :: r.1, r.2)
      | StepResult.skipped =>
          processFrames inputType ncam T_G_B T_B_Cn vtx rest
      | StepResult.fatalStep => ([], Flow.fatalErr)

/-- Lines 88-142, the body of one vertex iteration after the sigint poll:
T_G_B = T_G_M * get_T_M_I(), then all frames of the vertex. -/
def processVertexBody (inputType : ResourceType) (md : MissionDataFrame)
    (vtx : VertexData) : List Dispatch × Flow :=
  let T_G_B := md.T_G_M.comp vtx.T_M_I
  processFrames inputType md.ncamera T_G_B md.T_B_Cn vtx
    (List.range vtx.numFrames)

/-- Lines 74-143: the vertex loop.  Per vertex: progress reporting (a
no-op here), one sigint poll (when enabled) with an early return on break,
then the vertex body. -/
def processVertices (cfg : Config) (inputType : ResourceType)
    (md : MissionDataFrame) : List VertexData → Nat → Result
  | [], polls => ⟨[], polls, Flow.ok⟩
  | vtx :: rest, polls =>
      if cfg.sigintEnabled then
        if cfg.breaker polls then ⟨[], polls + 1, Flow.cancelled⟩
        else
          let b := processVertexBody inputType md vtx
          match b.2 with
          | Flow.ok =>
              let r := processVertices cfg inputType md rest (polls + 1)
              ⟨b.1 ++ r.dispatches, r.polls, r.flow⟩
          | fl => ⟨b.1, polls + 1, fl⟩
      else
        let b := processVertexBody inputType md vtx
        match b.2 with
        | Flow.ok =>
            let r := processVertices cfg inputType md rest polls
            ⟨b.1 ++ r.dispatches, r.polls, r.flow⟩
        | fl => ⟨b.1, polls, fl⟩

/-- Lines 49-144, one mission of the frame-attached path: skip missions
without an NCamera, otherwise walk the vertices in graph order. -/
def processFrameMission (cfg : Config) (env : FrameEnv)
    (inputType : ResourceType) (missionId : Nat) (polls : Nat) : Result :=
  let md := env.missions missionId
  if md.hasNCamera then processVertices cfg inputType md md.vertices polls
  else ⟨[], polls, Flow.ok⟩

/-- Mission loop of the frame-attached driver. -/
def processFrameMissions (cfg : Config) (env : FrameEnv)
    (inputType : ResourceType) : List Nat → Nat → Result
  | [], polls => ⟨[], polls, Flow.ok⟩
  | m :: rest, polls =>
      let r := processFrameMission cfg env inputType m polls
      match r.flow with
      | Flow.ok =>
          let r2 := processFrameMissions cfg env inputType rest r.polls
          ⟨r.dispatches ++ r2.dispatches, r2.polls, r2.flow⟩
      | _ => r

/-- Lines 33-145: integrateAllFrameDepthMapResourcesOfTypeImpl.  The CHECK
on the supported depth types precedes everything else. -/
def integrateAllFrameDepthMapResourcesOfTypeImpl (cfg : Config)
    (env : FrameEnv) (missionIds : List Nat) (inputType : ResourceType) :
    Result :=
  if inputType ∈ kSupportedDepthMapInputTypes then
    processFrameMissions cfg env inputType missionIds 0
  else ⟨[], 0, Flow.fatalErr⟩

/-- Lines 147-165 and 417-435: the adapter wrapping a single-pose callback.
It CHECKs the received pose vector is of size at least one and forwards its
first element together with the other callback arguments; `none` models the
CHECK failing. -/
def singlePoseAdapter (T_G_C_vec : List Transform) (depthMap : Nat)
    (image : Option Nat) (camera : Camera) :
    Option (Transform × Nat × Option Nat × Camera) :=
  if 1 ≤ T_G_C_vec.length then
    some (T_G_C_vec.headD Transform.idT, depthMap, image, camera)
  else none

/-- Default dispatch value used with List.getD. -/
def dispatchDefault : Dispatch := ⟨[], 0, none, ⟨0, 0, 0⟩⟩

/-- Default flags: no timestamp shift, rolling-shutter compensation on,
sigint breaker disabled. -/
def cfgPlain : Config := ⟨0, true, false, fun _ => false⟩

/-- Global-shutter camera: one line, zero line delay. -/
def camGlobal : Camera := ⟨1, 0, 0⟩

/-- A single-camera NCamera sensor with identity extrinsics. -/
def sensorGlobal : SensorData := ⟨Transform.idT, true, 1, Transform.idT,
  camGlobal⟩

/-- Free-running mission whose single raw-depth resource at raw timestamp
2000 lies strictly outside the trajectory support [0, 1000]. -/
def mdOutOfRange : MissionDataOpt :=
  ⟨Transform.idT, some (0, 1000),
   fun ty =>
     if ty = ResourceType.kRawDepthMap then some [(0, [(2000, 7)])] else none,
   fun ts => ts.map (fun _ => Transform.idT),
   fun ty sid t =>
     if ty = ResourceType.kRawDepthMap ∧ sid = 0 ∧ t = 2000 then some 7
     else none⟩

def envOutOfRange : OptEnv := ⟨fun _ => sensorGlobal, fun _ => mdOutOfRange⟩

/-- Free-running mission with one in-range raw-depth resource at 500. -/
def mdInRange : MissionDataOpt :=
  ⟨Transform.idT, some (0, 1000),
   fun ty =>
     if ty = ResourceType.kRawDepthMap then some [(0, [(500, 7)])] else none,
   fun ts => ts.map (fun _ => Transform.idT),
   fun ty sid t =>
     if ty = ResourceType.kRawDepthMap ∧ sid = 0 ∧ t = 500 then some 7
     else none⟩

def envInRange : OptEnv := ⟨fun _ => sensorGlobal, fun _ => mdInRange⟩

/-- NCamera with identity per-frame extrinsics and global-shutter cameras. -/
def ncamTrivial : NCameraData := ⟨fun _ => Transform.idT, fun _ => camGlobal⟩

/-- A one-frame vertex holding a raw depth map and, as the only companion
candidate, a dedicated color image. -/
def vtxColorOnly : VertexData :=
  ⟨Transform.idT, 1,
   fun ty f =>
     if ty = ResourceType.kRawDepthMap ∧ f = 0 then some 5
     else if ty = ResourceType.kColorImageForDepthMap ∧ f = 0 then some 9
     else none⟩

/-- A one-frame vertex holding just a raw depth map. -/
def vtxDepthOnly : VertexData :=
  ⟨Transform.idT, 1,
   fun ty f =>
     if ty = ResourceType.kRawDepthMap ∧ f = 0 then some 5 else none⟩

/-- Frame-attached environment whose missions own no NCamera. -/
def envFrameTrivial : FrameEnv :=
  ⟨fun _ => ⟨false, Transform.idT, Transform.idT, ncamTrivial, []⟩⟩

/-- Companion-image resolver following the claim words: probe the single
fixed preference list -- dedicated grayscale for depth, dedicated color for
depth, raw grayscale -- and return the first hit.  Stated from the spec for
comparison with the code per-path probing. -/
def specCompanionResolve (lookup : ResourceType → Option Nat) : Option Nat :=
  (lookup ResourceType.kImageForDepthMap).orElse
    (fun _ => (lookup ResourceType.kColorImageForDepthMap).orElse
      (fun _ => lookup ResourceType.kRawImage))

/-- Flags with the sigint breaker enabled; the break is first requested at
poll index 3. -/
def cfgBreakAt3 : Config := ⟨0, true, true, fun i => decide (3 ≤ i)⟩

/-- Ten free-running resources at 0, 10, ..., 90 ns. -/
def bufTen : List (Int × Nat) :=
  [(0, 0), (10, 1), (20, 2), (30, 3), (40, 4), (50, 5), (60, 6), (70, 7),
   (80, 8), (90, 9)]

/-- Their clamped batched timestamps in [0, 1000]. -/
def tsTen : List Int := [0, 10, 20, 30, 40, 50, 60, 70, 80, 90]

/-- Ten interpolated identity poses. -/
def posesTen : List Transform := List.replicate 10 Transform.idT

/-- Free-running mission owning bufTen with every lookup succeeding. -/
def mdTen : MissionDataOpt :=
  ⟨Transform.idT, some (0, 1000),
   fun ty => if ty = ResourceType.kRawDepthMap then some [(0, bufTen)]
     else none,
   fun ts => ts.map (fun _ => Transform.idT),
   fun ty _ _ => if ty = ResourceType.kRawDepthMap then some 9 else none⟩

/-- Two free-running resources (prefix of bufTen). -/
def bufTwo : List (Int × Nat) := [(0, 0), (10, 1)]

/-- Frame-attached mission data used with explicit vertex lists. -/
def mdFrameFix : MissionDataFrame :=
  ⟨true, Transform.idT, Transform.idT, ncamTrivial,
   [vtxDepthOnly, vtxDepthOnly, vtxDepthOnly, vtxDepthOnly]⟩

/-- Four one-frame vertices, each with a depth map. -/
def vsFour : List VertexData :=
  [vtxDepthOnly, vtxDepthOnly, vtxDepthOnly, vtxDepthOnly]

/-- Two one-frame vertices. -/
def vsTwo : List VertexData := [vtxDepthOnly, vtxDepthOnly]

/-- Free-running mission whose interpolation collaborator violates its
contract by returning an empty pose list. -/
def mdBadInterp : MissionDataOpt :=
  ⟨Transform.idT, some (0, 1000),
   fun ty =>
     if ty = ResourceType.kRawDepthMap then some [(0, [(500, 7)])] else none,
   fun _ => [],
   fun ty sid t =>
     if ty = ResourceType.kRawDepthMap ∧ sid = 0 ∧ t = 500 then some 7
     else none⟩

def envBadInterp : OptEnv := ⟨fun _ => sensorGlobal, fun _ => mdBadInterp⟩

theorem Mat3.mul_assoc (a b c : Mat3) :
    (a.mul b).mul c = a.mul (b.mul c) := by
  cases a; cases b; cases c
  simp only [Mat3.mul, Mat3.mk.injEq]
  refine ⟨?_, ?_, ?_, ?_, ?_, ?_, ?_, ?_, ?_⟩ <;> ring

theorem Mat3.mulVec_mulVec (a b : Mat3) (v : Vec3) :
    (a.mul b).mulVec v = a.mulVec (b.mulVec v) := by
  cases a; cases b; cases v
  simp only [Mat3.mul, Mat3.mulVec, Vec3.mk.injEq]
  refine ⟨?_, ?_, ?_⟩ <;> ring

theorem Mat3.mulVec_add (a : Mat3) (v w : Vec3) :
    a.mulVec (v.add w) = (a.mulVec v).add (a.mulVec w) := by
  cases a; cases v; cases w
  simp only [Mat3.mulVec, Vec3.add, Vec3.mk.injEq]
  refine ⟨?_, ?_, ?_⟩ <;> ring

theorem Vec3.add_assoc (a b c : Vec3) :
    (a.add b).add c = a.add (b.add c) := by
  cases a; cases b; cases c
  simp only [Vec3.add, Vec3.mk.injEq]
  refine ⟨?_, ?_, ?_⟩ <;> ring

theorem Transform.comp_assoc (f g h : Transform) :
    (f.comp g).comp h = f.comp (g.comp h) := by
  cases f; cases g; cases h
  simp only [Transform.comp, Transform.mk.injEq, Mat3.mul_assoc,
    Mat3.mulVec_mulVec, Mat3.mulVec_add, Vec3.add_assoc, and_self]

/-- The clamp always lands inside [minNs, maxNs] when minNs is at most maxNs. -/
theorem clampTs_bounds (minNs maxNs t : Int) (h : minNs ≤ maxNs) :
    minNs ≤ clampTs minNs maxNs t ∧ clampTs minNs maxNs t ≤ maxNs := by
  unfold clampTs
  exact ⟨le_max_left _ _, max_le h (min_le_left _ _)⟩

/-- Indexing a mapped range. -/
theorem getD_map_range (f : Nat → Int) (n k : Nat) (hk : k < n) :
    ((List.range n).map f).getD k 0 = f k := by
  rw [List.getD_eq_getElem?_getD, List.getElem?_map, List.getElem?_range hk]
  rfl

/-- Length of a mapped range. -/
theorem length_map_range (f : Nat → Int) (n : Nat) :
    ((List.range n).map f).length = n := by
  rw [List.length_map, List.length_range]

/-- The batched array carries numLines entries per resource. -/
theorem buildResourceTimestamps_length (s d : Int) (n : Nat) (mn mx : Int)
    (buf : List (Int × Nat)) :
    (buildResourceTimestamps s d n mn mx buf).length = buf.length * n := by
  induction buf with
  | nil => simp [buildResourceTimestamps]
  | cons sr rest ih =>
      rw [buildResourceTimestamps, List.length_append, length_map_range, ih,
        List.length_cons]
      ring

/-- Entry (r, k) of the batched array is the clamped corrected timestamp of
resource r at line k. -/
theorem buildResourceTimestamps_getD (s d : Int) (n : Nat) (mn mx : Int)
    (buf : List (Int × Nat)) (r k : Nat) (hr : r < buf.length) (hk : k < n) :
    (buildResourceTimestamps s d n mn mx buf).getD (r * n + k) 0 =
      clampTs mn mx ((buf.getD r (0, 0)).1 + s + (k : Int) * d) := by
  induction buf generalizing r with
  | nil => simp at hr
  | cons sr rest ih =>
      cases r with
      | zero =>
          have hlt : k < ((List.range n).map
              (fun k : Nat => clampTs mn mx (sr.1 + s + (k : Int) * d))).length := by
            rw [length_map_range]; exact hk
          rw [buildResourceTimestamps, Nat.zero_mul, Nat.zero_add,
            List.getD_append _ _ _ _ hlt, getD_map_range _ _ _ hk]
          simp
      | succ r =>
          have hr : r < rest.length := by simpa using hr
          have hlen : ((List.range n).map
              (fun k : Nat => clampTs mn mx (sr.1 + s + (k : Int) * d))).length = n := by
            rw [length_map_range]
          have hidx : (r + 1) * n + k = n + (r * n + k) := by ring
          rw [buildResourceTimestamps, hidx, List.getD_append_right, hlen,
            Nat.add_sub_cancel_left, List.getD_cons_succ]
          · exact ih r hr
          · rw [hlen]; omega

/-- Every batched-array entry lies in [mn, mx] when mn is at most mx. -/
theorem buildResourceTimestamps_mem (s d : Int) (n : Nat) (mn mx : Int)
    (buf : List (Int × Nat)) (h : mn ≤ mx) :
    ∀ t ∈ buildResourceTimestamps s d n mn mx buf, mn ≤ t ∧ t ≤ mx := by
  induction buf with
  | nil => simp [buildResourceTimestamps]
  | cons sr rest ih =>
      intro t ht
      simp only [buildResourceTimestamps, List.mem_append, List.mem_map,
        List.mem_range] at ht
      rcases ht with ⟨k, _, rfl⟩ | ht
      · exact clampTs_bounds mn mx _ h
      · exact ih t ht

/-- Index form of buildResourceTimestamps_mem. -/
theorem buildResourceTimestamps_getD_bounds (s d : Int) (n : Nat)
    (mn mx : Int) (buf : List (Int × Nat)) (h : mn ≤ mx) (i : Nat)
    (hi : i < (buildResourceTimestamps s d n mn mx buf).length) :
    mn ≤ (buildResourceTimestamps s d n mn mx buf).getD i 0 ∧
      (buildResourceTimestamps s d n mn mx buf).getD i 0 ≤ mx := by
  have hget : (buildResourceTimestamps s d n mn mx buf).getD i 0 =
      (buildResourceTimestamps s d n mn mx buf)[i] :=
    List.getD_eq_getElem _ _ hi
  rw [hget]
  exact buildResourceTimestamps_mem s d n mn mx buf h _ (List.getElem_mem _)

/-- Characterization of one free-running resource step when the depth map is
present and the batched-array entry at the resource start index is in
range: the step dispatches, with one composed pose per line and the
companion image resolved from the dedicated grayscale then the dedicated
color image. -/
theorem optResourceStep_dispatched (md : MissionDataOpt) (sid : Nat)
    (ty : ResourceType) (cam : Camera) (n : Nat) (mn mx : Int)
    (TG TBC : Transform) (ts : List Int) (poses : List Transform)
    (total idx : Nat) (t : Int) (dm : Nat)
    (hty : ty = ResourceType.kRawDepthMap ∨
      ty = ResourceType.kOptimizedDepthMap)
    (hb : idx + n ≤ total)
    (hlo : mn ≤ ts.getD idx 0) (hhi : ts.getD idx 0 ≤ mx)
    (hstore : md.getSensorResource ty sid t = some dm) :
    optResourceStep md sid ty cam n mn mx TG TBC ts poses total idx t =
      StepResult.dispatched
        ⟨(List.range n).map
            (fun k => (TG.comp (poses.getD (idx + k) Transform.idT)).comp TBC),
          dm,
          (md.getSensorResource ResourceType.kImageForDepthMap sid t).orElse
            (fun _ => md.getSensorResource ResourceType.kColorImageForDepthMap
              sid t),
          cam⟩ := by
  have h1 : ¬ (0 < n ∧ ¬ idx + n ≤ total) := by omega
  have h2 : ¬ (ts.getD idx 0 < mn ∨ mx < ts.getD idx 0) := by omega
  rcases hty with rfl | rfl <;>
    simp only [optResourceStep, if_neg h1, if_neg h2, hstore]

/-- The step can only skip when the batched-array entry it compares against
[mn, mx] falls outside that interval; entries of the clamped batched array
never do (with mn at most mx), which is what makes the source out-of-range
skip unreachable. -/
theorem optResourceStep_no_skip (md : MissionDataOpt) (sid : Nat)
    (ty : ResourceType) (cam : Camera) (n : Nat) (mn mx : Int)
    (TG TBC : Transform) (ts : List Int) (poses : List Transform)
    (total idx : Nat) (t : Int)
    (hlo : mn ≤ ts.getD idx 0) (hhi : ts.getD idx 0 ≤ mx) :
    optResourceStep md sid ty cam n mn mx TG TBC ts poses total idx t ≠
      StepResult.skipped := by
  have h2 : ¬ (ts.getD idx 0 < mn ∨ mx < ts.getD idx 0) := by omega
  by_cases h1 : 0 < n ∧ ¬ idx + n ≤ total
  · simp only [optResourceStep, if_pos h1]
    simp
  · simp only [optResourceStep, if_neg h1, if_neg h2]
    split <;> (try split) <;> simp

/-- Closed form of the resource loop when the sigint breaker is disabled,
every depth-map lookup succeeds and every batched-array entry is in range:
every resource is dispatched, in order, and the r-th dispatch slices its
poses from the contiguous block of the interpolation result that starts at
index idx + r * n. -/
theorem processOptResources_all_dispatch (cfg : Config) (md : MissionDataOpt)
    (sid : Nat) (ty : ResourceType) (cam : Camera) (n : Nat) (mn mx : Int)
    (TG TBC : Transform) (ts : List Int) (poses : List Transform)
    (total : Nat)
    (hsig : cfg.sigintEnabled = false)
    (hty : ty = ResourceType.kRawDepthMap ∨
      ty = ResourceType.kOptimizedDepthMap)
    (hn : 0 < n)
    (hts : ∀ i, i < total → mn ≤ ts.getD i 0 ∧ ts.getD i 0 ≤ mx) :
    ∀ (buf : List (Int × Nat)) (idx polls : Nat),
      idx + buf.length * n ≤ total →
      (∀ sr ∈ buf, (md.getSensorResource ty sid sr.1).isSome) →
      (processOptResources cfg md sid ty cam n mn mx TG TBC ts poses total
          buf idx polls).flow = Flow.ok ∧
      (processOptResources cfg md sid ty cam n mn mx TG TBC ts poses total
          buf idx polls).polls = polls ∧
      (processOptResources cfg md sid ty cam n mn mx TG TBC ts poses total
          buf idx polls).dispatches.length = buf.length ∧
      ∀ r, r < buf.length →
        ((processOptResources cfg md sid ty cam n mn mx TG TBC ts poses total
            buf idx polls).dispatches.getD r dispatchDefault).poses =
          (List.range n).map
            (fun k => (TG.comp
              (poses.getD (idx + r * n + k) Transform.idT)).comp TBC) := by
  intro buf
  induction buf with
  | nil => intro idx polls _ _; simp [processOptResources]
  | cons sr rest ih =>
      intro idx polls hb hstore
      have hlen : (sr :: rest).length = rest.length + 1 := rfl
      rw [hlen, Nat.succ_mul] at hb
      have hidx : idx < total := by omega
      have hbn : idx + n ≤ total := by omega
      obtain ⟨dm, hdm⟩ := Option.isSome_iff_exists.mp
        (hstore sr (List.mem_cons_self _ _))
      have hstep := optResourceStep_dispatched md sid ty cam n mn mx TG TBC
        ts poses total idx sr.1 dm hty hbn (hts idx hidx).1 (hts idx hidx).2
        hdm
      have hrec := ih (idx + n) polls (by omega)
        (fun x hx => hstore x (List.mem_cons_of_mem _ hx))
      simp only [processOptResources, if_pos hidx, hsig, Bool.false_eq_true,
        if_false, hstep]
      refine ⟨hrec.1, hrec.2.1, ?_, ?_⟩
      · simp [hrec.2.2.1]
      · intro r hr
        cases r with
        | zero =>
            simp
        | succ r =>
            have hr : r < rest.length := by simpa using hr
            have := hrec.2.2.2 r hr
            simp only [List.getD_cons_succ]
            rw [this, show idx + n + r * n = idx + (r + 1) * n from by ring]

/-- With the sigint breaker enabled and first reporting a break at poll
index T, a resource loop entered at poll count polls with more than
T - polls resources left dispatches exactly the first T - polls resources,
then observes the flag at the next poll and returns cancelled; the final
poll count T + 1 shows one poll per processed resource plus the one that
observed the flag. -/
theorem processOptResources_cancelled (cfg : Config) (md : MissionDataOpt)
    (sid : Nat) (ty : ResourceType) (cam : Camera) (n : Nat) (mn mx : Int)
    (TG TBC : Transform) (ts : List Int) (poses : List Transform)
    (total T : Nat)
    (hsig : cfg.sigintEnabled = true)
    (hbrk : ∀ i, cfg.breaker i = decide (T ≤ i))
    (hty : ty = ResourceType.kRawDepthMap ∨
      ty = ResourceType.kOptimizedDepthMap)
    (hn : 0 < n)
    (hts : ∀ i, i < total → mn ≤ ts.getD i 0 ∧ ts.getD i 0 ≤ mx) :
    ∀ (buf : List (Int × Nat)) (idx polls : Nat),
      idx + buf.length * n ≤ total →
      (∀ sr ∈ buf, (md.getSensorResource ty sid sr.1).isSome) →
      polls ≤ T → T - polls < buf.length →
      (processOptResources cfg md sid ty cam n mn mx TG TBC ts poses total
          buf idx polls).dispatches.length = T - polls ∧
      (processOptResources cfg md sid ty cam n mn mx TG TBC ts poses total
          buf idx polls).flow = Flow.cancelled ∧
      (processOptResources cfg md sid ty cam n mn mx TG TBC ts poses total
          buf idx polls).polls = T + 1 := by
  intro buf
  induction buf with
  | nil => intro idx polls _ _ _ h; simp at h
  | cons sr rest ih =>
      intro idx polls hb hstore hpT hlt
      have hlen : (sr :: rest).length = rest.length + 1 := rfl
      rw [hlen, Nat.succ_mul] at hb
      have hidx : idx < total := by omega
      by_cases hT : T ≤ polls
      · have hTeq : T = polls := by omega
        simp only [processOptResources, if_pos hidx, hsig, if_true,
          hbrk polls, decide_eq_true hT, if_true]
        subst hTeq
        simp
      · obtain ⟨dm, hdm⟩ := Option.isSome_iff_exists.mp
          (hstore sr (List.mem_cons_self _ _))
        have hstep := optResourceStep_dispatched md sid ty cam n mn mx TG TBC
          ts poses total idx sr.1 dm hty (by omega) (hts idx hidx).1
          (hts idx hidx).2 hdm
        have hbf : cfg.breaker polls = false := by
          rw [hbrk polls]; simpa using hT
        have hrec := ih (idx + n) (polls + 1) (by omega)
          (fun x hx => hstore x (List.mem_cons_of_mem _ hx)) (by omega)
          (by simpa using Nat.lt_of_lt_of_le (by omega) (le_refl rest.length))
        simp only [processOptResources, if_pos hidx, hsig, if_true, hbf,
          Bool.false_eq_true, if_false, hstep]
        refine ⟨?_, hrec.2.1, hrec.2.2⟩
        simp only [List.length_cons, hrec.1]
        omega

/-- With the sigint breaker enabled and first reporting a break at poll
index T, a resource loop entered at poll count polls with at most T - polls
resources left dispatches all of them and completes normally, polling
exactly once per resource. -/
theorem processOptResources_completes (cfg : Config) (md : MissionDataOpt)
    (sid : Nat) (ty : ResourceType) (cam : Camera) (n : Nat) (mn mx : Int)
    (TG TBC : Transform) (ts : List Int) (poses : List Transform)
    (total T : Nat)
    (hsig : cfg.sigintEnabled = true)
    (hbrk : ∀ i, cfg.breaker i = decide (T ≤ i))
    (hty : ty = ResourceType.kRawDepthMap ∨
      ty = ResourceType.kOptimizedDepthMap)
    (hn : 0 < n)
    (hts : ∀ i, i < total → mn ≤ ts.getD i 0 ∧ ts.getD i 0 ≤ mx) :
    ∀ (buf : List (Int × Nat)) (idx polls : Nat),
      idx + buf.length * n ≤ total →
      (∀ sr ∈ buf, (md.getSensorResource ty sid sr.1).isSome) →
      buf.length ≤ T - polls →
      (processOptResources cfg md sid ty cam n mn mx TG TBC ts poses total
          buf idx polls).dispatches.length = buf.length ∧
      (processOptResources cfg md sid ty cam n mn mx TG TBC ts poses total
          buf idx polls).flow = Flow.ok ∧
      (processOptResources cfg md sid ty cam n mn mx TG TBC ts poses total
          buf idx polls).polls = polls + buf.length := by
  intro buf
  induction buf with
  | nil => intro idx polls _ _ _; simp [processOptResources]
  | cons sr rest ih =>
      intro idx polls hb hstore hle
      have hlen : (sr :: rest).length = rest.length + 1 := rfl
      rw [hlen, Nat.succ_mul] at hb
      rw [hlen] at hle
      have hidx : idx < total := by omega
      have hT : ¬ T ≤ polls := by omega
      obtain ⟨dm, hdm⟩ := Option.isSome_iff_exists.mp
        (hstore sr (List.mem_cons_self _ _))
      have hstep := optResourceStep_dispatched md sid ty cam n mn mx TG TBC
        ts poses total idx sr.1 dm hty (by omega) (hts idx hidx).1
        (hts idx hidx).2 hdm
      have hbf : cfg.breaker polls = false := by
        rw [hbrk polls]; simpa using hT
      have hrec := ih (idx + n) (polls + 1) (by omega)
        (fun x hx => hstore x (List.mem_cons_of_mem _ hx)) (by omega)
      simp only [processOptResources, if_pos hidx, hsig, if_true, hbf,
        Bool.false_eq_true, if_false, hstep]
      refine ⟨?_, hrec.2.1, ?_⟩
      · simp only [List.length_cons, hrec.1]
      · rw [hrec.2.2]; omega

/-- For a supported input type a vertex-frame step never hits the fatal
default branch of the switch. -/
theorem frameStep_not_fatal (ty : ResourceType) (ncam : NCameraData)
    (TG TBn : Transform) (vtx : VertexData) (f : Nat)
    (hty : ty = ResourceType.kRawDepthMap ∨
      ty = ResourceType.kOptimizedDepthMap) :
    frameStep ty ncam TG TBn vtx f ≠ StepResult.fatalStep := by
  rcases hty with rfl | rfl <;>
    · simp only [frameStep]
      split <;> simp

/-- For a supported input type the frame loop of one vertex always
completes without error. -/
theorem processFrames_flow_ok (ty : ResourceType) (ncam : NCameraData)
    (TG TBn : Transform) (vtx : VertexData)
    (hty : ty = ResourceType.kRawDepthMap ∨
      ty = ResourceType.kOptimizedDepthMap) :
    ∀ fs : List Nat, (processFrames ty ncam TG TBn vtx fs).2 = Flow.ok := by
  intro fs
  induction fs with
  | nil => rfl
  | cons f rest ih =>
      simp only [processFrames]
      cases hstep : frameStep ty ncam TG TBn vtx f with
      | dispatched d => simpa using ih
      | skipped => exact ih
      | fatalStep => exact absurd hstep (frameStep_not_fatal ty ncam TG TBn
          vtx f hty)

/-- For a supported input type a vertex body always completes without
error. -/
theorem processVertexBody_flow_ok (ty : ResourceType) (md : MissionDataFrame)
    (vtx : VertexData)
    (hty : ty = ResourceType.kRawDepthMap ∨
      ty = ResourceType.kOptimizedDepthMap) :
    (processVertexBody ty md vtx).2 = Flow.ok :=
  processFrames_flow_ok ty md.ncamera _ md.T_B_Cn vtx hty _

/-- Frame-attached analogue of processOptResources_cancelled: when the
breaker first fires at poll index T, the vertex loop processes exactly the
first T - polls vertices (dispatching all their frames) and returns
cancelled at the next poll. -/
theorem processVertices_cancelled (cfg : Config) (ty : ResourceType)
    (md : MissionDataFrame) (T : Nat)
    (hsig : cfg.sigintEnabled = true)
    (hbrk : ∀ i, cfg.breaker i = decide (T ≤ i))
    (hty : ty = ResourceType.kRawDepthMap ∨
      ty = ResourceType.kOptimizedDepthMap) :
    ∀ (vs : List VertexData) (polls : Nat),
      polls ≤ T → T - polls < vs.length →
      processVertices cfg ty md vs polls =
        ⟨((vs.take (T - polls)).map
            (fun v => (processVertexBody ty md v).1)).flatten,
          T + 1, Flow.cancelled⟩ := by
  intro vs
  induction vs with
  | nil => intro polls _ h; simp at h
  | cons v rest ih =>
      intro polls hpT hlt
      by_cases hT : T ≤ polls
      · have hTeq : T = polls := by omega
        simp only [processVertices, hsig, if_true, hbrk polls,
          decide_eq_true hT, if_true]
        subst hTeq
        simp
      · have hbf : cfg.breaker polls = false := by
          rw [hbrk polls]; simpa using hT
        have hbody := processVertexBody_flow_ok ty md v hty
        have hrec := ih (polls + 1) (by omega) (by simp at hlt; omega)
        simp only [processVertices, hsig, if_true, hbf, Bool.false_eq_true,
          if_false, hbody, hrec]
        have htake : T - polls = (T - (polls + 1)) + 1 := by omega
        rw [htake, List.take_succ_cons, List.map_cons, List.flatten_cons]

/-- Frame-attached analogue of processOptResources_completes: when the
breaker first fires only at poll index T and at most T - polls vertices
remain, all of them are processed and the loop completes normally with one
poll per vertex. -/
theorem processVertices_completes (cfg : Config) (ty : ResourceType)
    (md : MissionDataFrame) (T : Nat)
    (hsig : cfg.sigintEnabled = true)
    (hbrk : ∀ i, cfg.breaker i = decide (T ≤ i))
    (hty : ty = ResourceType.kRawDepthMap ∨
      ty = ResourceType.kOptimizedDepthMap) :
    ∀ (vs : List VertexData) (polls : Nat),
      vs.length ≤ T - polls →
      processVertices cfg ty md vs polls =
        ⟨(vs.map (fun v => (processVertexBody ty md v).1)).flatten,
          polls + vs.length, Flow.ok⟩ := by
  intro vs
  induction vs with
  | nil => intro polls _; simp [processVertices]
  | cons v rest ih =>
      intro polls hle
      have hT : ¬ T ≤ polls := by simp at hle; omega
      have hbf : cfg.breaker polls = false := by
        rw [hbrk polls]; simpa using hT
      have hbody := processVertexBody_flow_ok ty md v hty
      have hrec := ih (polls + 1) (by simp at hle; omega)
      simp only [processVertices, hsig, if_true, hbf, Bool.false_eq_true,
        if_false, hbody, hrec]
      simp only [List.map_cons, List.flatten_cons, List.length_cons]
      rw [show polls + 1 + rest.length = polls + (rest.length + 1) from by omega]

/-- C1.  The claim (and the source own comments at lines 299-303 and
357-366) state that a free-running resource whose raw timestamp plus the
global shift lies strictly outside [min_ns, max_ns] is skipped and never
dispatched.  The code instead reads corrected_timestamp_ns from the clamped
batched array (line 345; the intended expression sits orphaned, with no
effect, on line 346), so the comparison at lines 359-360 never fires: at
the concrete failing input -- trajectory support [0, 1000], shift 0, one
resource at raw timestamp 2000 -- the fusion callback IS invoked once and
the run completes normally, contradicting the claim. -/
theorem c1_out_of_range_resource_dispatched :
    (integrateAllOptionalSensorDepthMapResourcesOfTypeImpl cfgPlain
        envOutOfRange [0] ResourceType.kRawDepthMap).dispatches.length = 1 ∧
    (integrateAllOptionalSensorDepthMapResourcesOfTypeImpl cfgPlain
        envOutOfRange [0] ResourceType.kRawDepthMap).flow = Flow.ok := by
  decide

/-- C3.  The batched timestamp array for one sensor has one entry per
resource and line; the entry of resource r and line k is
clamp(rawTimestampNs + globalShiftNs + k*lineDelayNs, minNs, maxNs); and
(with minNs at most maxNs) every entry -- hence every timestamp handed to
the interpolation collaborator, which receives exactly this array -- lies
within [minNs, maxNs] inclusive. -/
theorem c3_batched_timestamps (s d : Int) (n : Nat) (mn mx : Int)
    (buf : List (Int × Nat)) :
    (buildResourceTimestamps s d n mn mx buf).length = buf.length * n ∧
    (∀ r k, r < buf.length → k < n →
      (buildResourceTimestamps s d n mn mx buf).getD (r * n + k) 0 =
        clampTs mn mx ((buf.getD r (0, 0)).1 + s + (k : Int) * d)) ∧
    (mn ≤ mx →
      ∀ t ∈ buildResourceTimestamps s d n mn mx buf, mn ≤ t ∧ t ≤ mx) :=
  ⟨buildResourceTimestamps_length s d n mn mx buf,
   fun r k hr hk => buildResourceTimestamps_getD s d n mn mx buf r k hr hk,
   fun h => buildResourceTimestamps_mem s d n mn mx buf h⟩

/-- Witness for C3 at Scenario B of the spec: resource at raw timestamp
500, shift 0, three lines of 100ns; line 2 maps to 700, inside [0, 1000]. -/
theorem c3_batched_timestamps_witness :
    (buildResourceTimestamps 0 100 3 0 1000 [(500, 7)]).getD (0 * 3 + 2) 0 =
      clampTs 0 1000
        ((([((500 : Int), (7 : Nat))]).getD 0 (0, 0)).1 + 0 + (2 : Int) * 100)
      ∧
    ((0 : Int) ≤ 1000 ∧ ∀ t ∈ buildResourceTimestamps 0 100 3 0 1000
      [(500, 7)], (0 : Int) ≤ t ∧ t ≤ 1000) :=
  ⟨(c3_batched_timestamps 0 100 3 0 1000 [(500, 7)]).2.1 0 2 (by decide)
      (by decide),
   by decide,
   (c3_batched_timestamps 0 100 3 0 1000 [(500, 7)]).2.2 (by decide)⟩

/-- C8 counterexample.  The claim states the single-pose adapter asserts
the received pose sequence has length exactly 1; but the code CHECKs only
size at least 1 (CHECK_GE at lines 158 and 428), so a two-element sequence
passes the assertion (the adapter succeeds) even though its length is
not 1. -/
theorem c8_exactly_one_counterexample :
    (singlePoseAdapter [Transform.idT, Transform.idT] 5 none
        camGlobal).isSome = true ∧
    ([Transform.idT, Transform.idT] : List Transform).length ≠ 1 := by
  decide

/-- C8 amended.  The adapter asserts only that the pose sequence it
receives is nonempty (length at least 1) and forwards the sequence first
element, with the remaining callback arguments unchanged, to the wrapped
callback. -/
theorem c8_adapter_forwards_first_pose (vec : List Transform) (dm : Nat)
    (img : Option Nat) (cam : Camera) :
    ((singlePoseAdapter vec dm img cam).isSome ↔ 1 ≤ vec.length) ∧
    (1 ≤ vec.length →
      singlePoseAdapter vec dm img cam =
        some (vec.headD Transform.idT, dm, img, cam)) := by
  constructor
  · by_cases h : 1 ≤ vec.length <;> simp [singlePoseAdapter, h]
  · intro h; simp [singlePoseAdapter, h]

/-- Witness for C8 amended at a singleton pose vector. -/
theorem c8_adapter_forwards_first_pose_witness :
    singlePoseAdapter [Transform.idT] 3 none camGlobal =
      some (([Transform.idT] : List Transform).headD Transform.idT, 3, none,
        camGlobal) :=
  (c8_adapter_forwards_first_pose [Transform.idT] 3 none camGlobal).2
    (by decide)

/-- C9.  When the requested depth input type is not among the supported
depth-map types, both integration entry points abort fatally with no
dispatch; the result is the same for every environment and mission list,
since the CHECK precedes any examination of missions, vertices, sensors or
resources. -/
theorem c9_unsupported_type_fatal (cfg : Config) (envO : OptEnv)
    (envF : FrameEnv) (missionIds : List Nat) (ty : ResourceType)
    (hty : ty ∉ kSupportedDepthMapInputTypes) :
    integrateAllOptionalSensorDepthMapResourcesOfTypeImpl cfg envO missionIds
        ty = ⟨[], 0, Flow.fatalErr⟩ ∧
    integrateAllFrameDepthMapResourcesOfTypeImpl cfg envF missionIds ty =
      ⟨[], 0, Flow.fatalErr⟩ := by
  constructor <;>
    simp [integrateAllOptionalSensorDepthMapResourcesOfTypeImpl,
      integrateAllFrameDepthMapResourcesOfTypeImpl, hty]

/-- Witness for C9 with the raw-grayscale image type, which is not a
supported depth input type. -/
theorem c9_unsupported_type_fatal_witness :
    integrateAllOptionalSensorDepthMapResourcesOfTypeImpl cfgPlain
        envOutOfRange [0] ResourceType.kRawImage = ⟨[], 0, Flow.fatalErr⟩ ∧
    integrateAllFrameDepthMapResourcesOfTypeImpl cfgPlain envFrameTrivial [0]
        ResourceType.kRawImage = ⟨[], 0, Flow.fatalErr⟩ :=
  c9_unsupported_type_fatal cfgPlain envOutOfRange envFrameTrivial [0]
    ResourceType.kRawImage (by decide)

/-- C10.  In the free-running path a sensor owning resources of the
requested type whose sensor-manager record is not an NCamera with exactly
one camera makes the per-sensor integration -- and with it the sensor walk
-- abort fatally with no dispatch and no change to the poll count.  The
mission data md (which carries the interpolator and the resource store) is
universally quantified and absent from the result, so the abort happens
before any timestamp is built, any pose interpolated, or any resource
dispatched. -/
theorem c10_sensor_must_be_single_camera_ncamera (cfg : Config)
    (env : OptEnv) (md : MissionDataOpt) (ty : ResourceType) (mn mx : Int)
    (polls sid : Nat) (buf : List (Int × Nat))
    (rest : List (Nat × List (Int × Nat)))
    (hbad : ¬ ((env.sensors sid).isNCamera = true ∧
      (env.sensors sid).numCameras = 1)) :
    integrateSensor cfg env md ty mn mx polls sid buf =
        ⟨[], polls, Flow.fatalErr⟩ ∧
    processOptSensors cfg env md ty mn mx ((sid, buf) :: rest) polls =
      ⟨[], polls, Flow.fatalErr⟩ := by
  have hsensor : integrateSensor cfg env md ty mn mx polls sid buf =
      ⟨[], polls, Flow.fatalErr⟩ := by
    by_cases hcam : (env.sensors sid).isNCamera = true
    · have hone : ¬ (env.sensors sid).numCameras = 1 := fun h =>
        hbad ⟨hcam, h⟩
      simp [integrateSensor, hcam, hone]
    · simp [integrateSensor, hcam]
  refine ⟨hsensor, ?_⟩
  simp [processOptSensors, hsensor]

/-- Witness for C10: a sensor-manager record flagged as not-an-NCamera. -/
theorem c10_sensor_must_be_single_camera_ncamera_witness :
    integrateSensor cfgPlain
        ⟨fun _ => ⟨Transform.idT, false, 1, Transform.idT, camGlobal⟩,
          fun _ => mdInRange⟩
        mdInRange ResourceType.kRawDepthMap 0 1000 0 0 [(500, 7)] =
      ⟨[], 0, Flow.fatalErr⟩ :=
  (c10_sensor_must_be_single_camera_ncamera cfgPlain
      ⟨fun _ => ⟨Transform.idT, false, 1, Transform.idT, camGlobal⟩,
        fun _ => mdInRange⟩
      mdInRange ResourceType.kRawDepthMap 0 1000 0 0 [(500, 7)] []
      (by decide)).1

/-- C4 counterexample.  The claim says every dispatched depth map resolves
its companion through the fixed order (dedicated grayscale, dedicated
color, raw grayscale).  In the frame-attached path the code probes only the
dedicated grayscale and then the raw grayscale image (lines 114-129): for a
vertex that offers only a dedicated color image the claimed resolver
returns that color image, but the dispatched callback receives an empty
companion. -/
theorem c4_preference_order_counterexample :
    (match frameStep ResourceType.kRawDepthMap ncamTrivial Transform.idT
        Transform.idT vtxColorOnly 0 with
      | StepResult.dispatched d => d.image
      | _ => some 0) = none ∧
    specCompanionResolve (fun ty => vtxColorOnly.frameStore ty 0) =
      some 9 := by
  decide

/-- C4 amended.  For a supported input type with the depth map present, the
frame-attached path dispatches with the companion resolved as dedicated
grayscale orElse raw grayscale (lines 114-129), and the free-running path
dispatches with the companion resolved as dedicated grayscale orElse
dedicated color (lines 384-401); in both paths the first type found wins,
an empty result still dispatches (with an empty companion image), and
companion resolution never causes an error or a skip of the resource. -/
theorem c4_companion_resolution
    (ty : ResourceType) (ncam : NCameraData) (TG TBn : Transform)
    (vtx : VertexData) (f dm : Nat)
    (md : MissionDataOpt) (sid : Nat) (cam : Camera) (n : Nat)
    (mn mx : Int) (TG2 TBC : Transform) (ts : List Int)
    (poses : List Transform) (total idx : Nat) (t : Int) (dm2 : Nat)
    (hty : ty = ResourceType.kRawDepthMap ∨
      ty = ResourceType.kOptimizedDepthMap) :
    (vtx.frameStore ty f = some dm →
      frameStep ty ncam TG TBn vtx f = StepResult.dispatched
        ⟨[TG.comp (TBn.comp ((ncam.T_C_B f).inv))], dm,
          (vtx.frameStore ResourceType.kImageForDepthMap f).orElse
            (fun _ => vtx.frameStore ResourceType.kRawImage f),
          ncam.camera f⟩) ∧
    (idx + n ≤ total → mn ≤ ts.getD idx 0 → ts.getD idx 0 ≤ mx →
      md.getSensorResource ty sid t = some dm2 →
      optResourceStep md sid ty cam n mn mx TG2 TBC ts poses total idx t =
        StepResult.dispatched
          ⟨(List.range n).map (fun k =>
              (TG2.comp (poses.getD (idx + k) Transform.idT)).comp TBC),
            dm2,
            (md.getSensorResource ResourceType.kImageForDepthMap sid
              t).orElse
              (fun _ => md.getSensorResource
                ResourceType.kColorImageForDepthMap sid t),
            cam⟩) := by
  constructor
  · intro hstore
    rcases hty with rfl | rfl <;> simp only [frameStep, hstore]
  · intro hb hlo hhi hstore
    exact optResourceStep_dispatched md sid ty cam n mn mx TG2 TBC ts poses
      total idx t dm2 hty hb hlo hhi hstore

/-- Witness for C4 amended: a vertex frame whose only resource is the depth
map itself still dispatches, with an empty companion, in both paths. -/
theorem c4_companion_resolution_witness :
    frameStep ResourceType.kRawDepthMap ncamTrivial Transform.idT
        Transform.idT vtxDepthOnly 0 =
      StepResult.dispatched
        ⟨[Transform.idT.comp (Transform.idT.comp
            ((ncamTrivial.T_C_B 0).inv))], 5,
          (vtxDepthOnly.frameStore ResourceType.kImageForDepthMap 0).orElse
            (fun _ => vtxDepthOnly.frameStore ResourceType.kRawImage 0),
          ncamTrivial.camera 0⟩ ∧
    optResourceStep mdInRange 0 ResourceType.kRawDepthMap camGlobal 1 0 1000
        Transform.idT Transform.idT [500] [Transform.idT] 1 0 500 =
      StepResult.dispatched
        ⟨(List.range 1).map (fun k =>
            (Transform.idT.comp (([Transform.idT] : List Transform).getD
              (0 + k) Transform.idT)).comp Transform.idT),
          7,
          (mdInRange.getSensorResource ResourceType.kImageForDepthMap 0
            500).orElse
            (fun _ => mdInRange.getSensorResource
              ResourceType.kColorImageForDepthMap 0 500),
          camGlobal⟩ :=
  ⟨(c4_companion_resolution ResourceType.kRawDepthMap ncamTrivial
      Transform.idT Transform.idT vtxDepthOnly 0 5 mdInRange 0 camGlobal 1
      0 1000 Transform.idT Transform.idT [500] [Transform.idT] 1 0 500 7
      (Or.inl rfl)).1 (by decide),
   (c4_companion_resolution ResourceType.kRawDepthMap ncamTrivial
      Transform.idT Transform.idT vtxDepthOnly 0 5 mdInRange 0 camGlobal 1
      0 1000 Transform.idT Transform.idT [500] [Transform.idT] 1 0 500 7
      (Or.inl rfl)).2 (by decide) (by decide) (by decide) (by decide)⟩

/-- C5.  For an in-range item whose depth-map lookup fails: the
frame-attached path turns the frame into a benign skip -- no dispatch for
it, and the frame loop simply continues with the remaining frames -- while
the free-running path hits LOG(FATAL), so the resource loop stops with a
fatal outcome and no dispatch for the missing item. -/
theorem c5_missing_resource_handling
    (ty : ResourceType) (ncam : NCameraData) (TG TBn : Transform)
    (vtx : VertexData) (f : Nat) (rest : List Nat)
    (cfg : Config) (md : MissionDataOpt) (sid : Nat) (cam : Camera)
    (n : Nat) (mn mx : Int) (TG2 TBC : Transform) (ts : List Int)
    (poses : List Transform) (total idx polls : Nat) (sr : Int × Nat)
    (rrest : List (Int × Nat))
    (hty : ty = ResourceType.kRawDepthMap ∨
      ty = ResourceType.kOptimizedDepthMap) :
    (vtx.frameStore ty f = none →
      frameStep ty ncam TG TBn vtx f = StepResult.skipped ∧
      processFrames ty ncam TG TBn vtx (f :: rest) =
        processFrames ty ncam TG TBn vtx rest) ∧
    (cfg.sigintEnabled = false → idx < total → idx + n ≤ total →
      mn ≤ ts.getD idx 0 → ts.getD idx 0 ≤ mx →
      md.getSensorResource ty sid sr.1 = none →
      optResourceStep md sid ty cam n mn mx TG2 TBC ts poses total idx
          sr.1 = StepResult.fatalStep ∧
      processOptResources cfg md sid ty cam n mn mx TG2 TBC ts poses total
        (sr :: rrest) idx polls = ⟨[], polls, Flow.fatalErr⟩) := by
  constructor
  · intro hnone
    have hstep : frameStep ty ncam TG TBn vtx f = StepResult.skipped := by
      rcases hty with rfl | rfl <;> simp only [frameStep, hnone]
    exact ⟨hstep, by simp only [processFrames, hstep]⟩
  · intro hsig hidx hb hlo hhi hnone
    have h1 : ¬ (0 < n ∧ ¬ idx + n ≤ total) := by omega
    have h2 : ¬ (ts.getD idx 0 < mn ∨ mx < ts.getD idx 0) := by omega
    have hstep : optResourceStep md sid ty cam n mn mx TG2 TBC ts poses
        total idx sr.1 = StepResult.fatalStep := by
      rcases hty with rfl | rfl <;>
        simp only [optResourceStep, if_neg h1, if_neg h2, hnone]
    refine ⟨hstep, ?_⟩
    simp only [processOptResources, if_pos hidx, hsig, Bool.false_eq_true,
      if_false, hstep]

/-- Witness for C5: one-frame vertex with an empty store, and a
free-running buffer entry whose promised key the store cannot deliver. -/
theorem c5_missing_resource_handling_witness :
    (frameStep ResourceType.kRawDepthMap ncamTrivial Transform.idT
        Transform.idT ⟨Transform.idT, 1, fun _ _ => none⟩ 0 =
        StepResult.skipped ∧
      processFrames ResourceType.kRawDepthMap ncamTrivial Transform.idT
          Transform.idT ⟨Transform.idT, 1, fun _ _ => none⟩ [0] =
        processFrames ResourceType.kRawDepthMap ncamTrivial Transform.idT
          Transform.idT ⟨Transform.idT, 1, fun _ _ => none⟩ []) ∧
    (optResourceStep
        ⟨Transform.idT, some (0, 1000),
          fun _ => none, fun ts => ts.map (fun _ => Transform.idT),
          fun _ _ _ => none⟩
        0 ResourceType.kRawDepthMap camGlobal 1 0 1000 Transform.idT
        Transform.idT [500] [Transform.idT] 1 0 500 =
        StepResult.fatalStep ∧
      processOptResources cfgPlain
        ⟨Transform.idT, some (0, 1000),
          fun _ => none, fun ts => ts.map (fun _ => Transform.idT),
          fun _ _ _ => none⟩
        0 ResourceType.kRawDepthMap camGlobal 1 0 1000 Transform.idT
        Transform.idT [500] [Transform.idT] 1 [(500, 7)] 0 0 =
        ⟨[], 0, Flow.fatalErr⟩) :=
  ⟨(c5_missing_resource_handling ResourceType.kRawDepthMap ncamTrivial
      Transform.idT Transform.idT ⟨Transform.idT, 1, fun _ _ => none⟩ 0 []
      cfgPlain
      ⟨Transform.idT, some (0, 1000), fun _ => none,
        fun ts => ts.map (fun _ => Transform.idT), fun _ _ _ => none⟩
      0 camGlobal 1 0 1000 Transform.idT Transform.idT [500]
      [Transform.idT] 1 0 0 (500, 7) [] (Or.inl rfl)).1 rfl,
   (c5_missing_resource_handling ResourceType.kRawDepthMap ncamTrivial
      Transform.idT Transform.idT ⟨Transform.idT, 1, fun _ _ => none⟩ 0 []
      cfgPlain
      ⟨Transform.idT, some (0, 1000), fun _ => none,
        fun ts => ts.map (fun _ => Transform.idT), fun _ _ _ => none⟩
      0 camGlobal 1 0 1000 Transform.idT Transform.idT [500]
      [Transform.idT] 1 0 0 (500, 7) [] (Or.inl rfl)).2 rfl (by decide)
      (by decide) (by decide) (by decide) rfl⟩

/-- A dispatched vertex-frame step carries exactly one pose, the vertex
pose composed with the rig and per-frame camera extrinsics. -/
theorem frameStep_dispatched_poses (ty : ResourceType) (ncam : NCameraData)
    (TG TBn : Transform) (vtx : VertexData) (f : Nat) (d : Dispatch)
    (hty : ty = ResourceType.kRawDepthMap ∨
      ty = ResourceType.kOptimizedDepthMap)
    (h : frameStep ty ncam TG TBn vtx f = StepResult.dispatched d) :
    d.poses = [TG.comp (TBn.comp ((ncam.T_C_B f).inv))] := by
  rcases hty with rfl | rfl
  · simp only [frameStep] at h
    cases hst : vtx.frameStore ResourceType.kRawDepthMap f with
    | none => rw [hst] at h; exact absurd h (by simp)
    | some dm => rw [hst] at h; cases h; rfl
  · simp only [frameStep] at h
    cases hst : vtx.frameStore ResourceType.kOptimizedDepthMap f with
    | none => rw [hst] at h; exact absurd h (by simp)
    | some dm => rw [hst] at h; cases h; rfl

/-- C2.  Frame-attached path: every dispatched frame carries exactly one
pose, equal to T_G_M * T_M_B(vertex) * T_B_rig * T_rig_sensor.
Free-running path: under the per-sensor checks, with the breaker disabled,
a supported type, every depth lookup succeeding and the interpolation
result of the CHECKed length, every resource of the buffer is dispatched
and the r-th dispatch carries exactly lineCount poses, the k-th equal to
T_G_M * T_M_B * T_B_rig * T_rig_sensor with T_M_B taken from the resource
own contiguous lineCount-sized slice of the batched interpolation result
(entries r*lineCount .. r*lineCount + lineCount - 1). -/
theorem c2_pose_composition
    (tyF : ResourceType) (ncam : NCameraData) (TGM TMI TBn : Transform)
    (vtx : VertexData) (f : Nat) (d : Dispatch)
    (cfg : Config) (env : OptEnv) (md : MissionDataOpt) (ty : ResourceType)
    (mn mx : Int) (polls sid : Nat) (buf : List (Int × Nat))
    (n : Nat) (ld : Int) (ts : List Int) (posesMB : List Transform) :
    ((tyF = ResourceType.kRawDepthMap ∨
        tyF = ResourceType.kOptimizedDepthMap) →
      frameStep tyF ncam (TGM.comp TMI) TBn vtx f =
        StepResult.dispatched d →
      d.poses = [((TGM.comp TMI).comp TBn).comp ((ncam.T_C_B f).inv)]) ∧
    ((env.sensors sid).isNCamera = true →
      (env.sensors sid).numCameras = 1 →
      cfg.sigintEnabled = false →
      (ty = ResourceType.kRawDepthMap ∨
        ty = ResourceType.kOptimizedDepthMap) →
      mn ≤ mx →
      n = (if cfg.enableRollingShutterCompensation then
        (env.sensors sid).camera.numberOfLines else 1) →
      ld = (if cfg.enableRollingShutterCompensation then
        (env.sensors sid).camera.lineDelayNanoSeconds else 0) →
      ts = buildResourceTimestamps cfg.timestampShiftNs ld n mn mx buf →
      posesMB = md.getPosesAtTime ts →
      0 < n →
      posesMB.length = buf.length * n →
      (∀ sr ∈ buf, (md.getSensorResource ty sid sr.1).isSome) →
      (integrateSensor cfg env md ty mn mx polls sid buf).dispatches.length
          = buf.length ∧
      ∀ r, r < buf.length →
        ((integrateSensor cfg env md ty mn mx polls sid
            buf).dispatches.getD r dispatchDefault).poses =
          (List.range n).map (fun k =>
            ((md.T_G_M.comp (posesMB.getD (r * n + k)
              Transform.idT)).comp (env.sensors sid).T_B_S).comp
              ((env.sensors sid).T_C_B.inv))) := by
  constructor
  · intro htyF hdisp
    rw [frameStep_dispatched_poses tyF ncam (TGM.comp TMI) TBn vtx f d htyF
      hdisp]
    simp only [Transform.comp_assoc]
  · intro hcam hone hsig hty hmm hn hld hts hposes hnpos hplen hstore
    subst hposes
    subst hts
    subst hld
    subst hn
    have hlen : (buildResourceTimestamps cfg.timestampShiftNs
        (if cfg.enableRollingShutterCompensation then
          (env.sensors sid).camera.lineDelayNanoSeconds else 0)
        (if cfg.enableRollingShutterCompensation then
          (env.sensors sid).camera.numberOfLines else 1) mn mx buf).length =
        buf.length * (if cfg.enableRollingShutterCompensation then
          (env.sensors sid).camera.numberOfLines else 1) :=
      buildResourceTimestamps_length _ _ _ _ _ _
    have htsb : ∀ i, i < buf.length *
        (if cfg.enableRollingShutterCompensation then
          (env.sensors sid).camera.numberOfLines else 1) →
        mn ≤ (buildResourceTimestamps cfg.timestampShiftNs
          (if cfg.enableRollingShutterCompensation then
            (env.sensors sid).camera.lineDelayNanoSeconds else 0)
          (if cfg.enableRollingShutterCompensation then
            (env.sensors sid).camera.numberOfLines else 1) mn mx
          buf).getD i 0 ∧
        (buildResourceTimestamps cfg.timestampShiftNs
          (if cfg.enableRollingShutterCompensation then
            (env.sensors sid).camera.lineDelayNanoSeconds else 0)
          (if cfg.enableRollingShutterCompensation then
            (env.sensors sid).camera.numberOfLines else 1) mn mx
          buf).getD i 0 ≤ mx := by
      intro i hi
      exact buildResourceTimestamps_getD_bounds _ _ _ _ _ _ hmm i
        (by rw [hlen]; exact hi)
    have hmain := processOptResources_all_dispatch cfg md sid ty
      (env.sensors sid).camera
      (if cfg.enableRollingShutterCompensation then
        (env.sensors sid).camera.numberOfLines else 1) mn mx md.T_G_M
      ((env.sensors sid).T_B_S.comp ((env.sensors sid).T_C_B.inv))
      (buildResourceTimestamps cfg.timestampShiftNs
        (if cfg.enableRollingShutterCompensation then
          (env.sensors sid).camera.lineDelayNanoSeconds else 0)
        (if cfg.enableRollingShutterCompensation then
          (env.sensors sid).camera.numberOfLines else 1) mn mx buf)
      (md.getPosesAtTime (buildResourceTimestamps cfg.timestampShiftNs
        (if cfg.enableRollingShutterCompensation then
          (env.sensors sid).camera.lineDelayNanoSeconds else 0)
        (if cfg.enableRollingShutterCompensation then
          (env.sensors sid).camera.numberOfLines else 1) mn mx buf))
      (buf.length * (if cfg.enableRollingShutterCompensation then
        (env.sensors sid).camera.numberOfLines else 1))
      hsig hty hnpos htsb buf 0 polls (by omega) hstore
    have hunfold : integrateSensor cfg env md ty mn mx polls sid buf =
        processOptResources cfg md sid ty (env.sensors sid).camera
          (if cfg.enableRollingShutterCompensation then
            (env.sensors sid).camera.numberOfLines else 1) mn mx md.T_G_M
          ((env.sensors sid).T_B_S.comp ((env.sensors sid).T_C_B.inv))
          (buildResourceTimestamps cfg.timestampShiftNs
            (if cfg.enableRollingShutterCompensation then
              (env.sensors sid).camera.lineDelayNanoSeconds else 0)
            (if cfg.enableRollingShutterCompensation then
              (env.sensors sid).camera.numberOfLines else 1) mn mx buf)
          (md.getPosesAtTime (buildResourceTimestamps cfg.timestampShiftNs
            (if cfg.enableRollingShutterCompensation then
              (env.sensors sid).camera.lineDelayNanoSeconds else 0)
            (if cfg.enableRollingShutterCompensation then
              (env.sensors sid).camera.numberOfLines else 1) mn mx buf))
          (buf.length * (if cfg.enableRollingShutterCompensation then
            (env.sensors sid).camera.numberOfLines else 1)) buf 0 polls := by
      simp only [integrateSensor, hcam, hone, hplen, if_true]
    rw [hunfold]
    refine ⟨hmain.2.2.1, ?_⟩
    intro r hr
    rw [hmain.2.2.2 r hr]
    simp only [Nat.zero_add, Transform.comp_assoc]

/-- Witness for C2: Scenario A of the spec -- a global-shutter sensor with a
single resource at 500 inside [0, 1000] yields exactly one dispatched pose,
composed through the extrinsics; and a dispatched vertex frame carries the
single composed pose. -/
theorem c2_pose_composition_witness :
    (⟨[(Transform.idT.comp Transform.idT).comp (Transform.idT.comp
        ((ncamTrivial.T_C_B 0).inv))], 5, none, camGlobal⟩ : Dispatch).poses
        =
      [((Transform.idT.comp Transform.idT).comp Transform.idT).comp
        ((ncamTrivial.T_C_B 0).inv)] ∧
    (integrateSensor cfgPlain envInRange mdInRange
        ResourceType.kRawDepthMap 0 1000 0 0 [(500, 7)]).dispatches.length
        = 1 ∧
    ((integrateSensor cfgPlain envInRange mdInRange
        ResourceType.kRawDepthMap 0 1000 0 0
        [(500, 7)]).dispatches.getD 0 dispatchDefault).poses =
      (List.range 1).map (fun k =>
        ((mdInRange.T_G_M.comp (([Transform.idT] : List Transform).getD
          (0 * 1 + k) Transform.idT)).comp
          (envInRange.sensors 0).T_B_S).comp
          ((envInRange.sensors 0).T_C_B.inv)) := by
  have h := c2_pose_composition ResourceType.kRawDepthMap ncamTrivial
    Transform.idT Transform.idT Transform.idT vtxDepthOnly 0
    ⟨[(Transform.idT.comp Transform.idT).comp (Transform.idT.comp
        ((ncamTrivial.T_C_B 0).inv))], 5, none, camGlobal⟩
    cfgPlain envInRange mdInRange
    ResourceType.kRawDepthMap 0 1000 0 0 [(500, 7)] 1 0 [500]
    [Transform.idT]
  have h2 := h.2 (by decide) (by decide) (by decide) (Or.inl rfl)
    (by decide) (by decide) (by decide) (by decide) rfl (by decide)
    (by decide) (by decide)
  exact ⟨h.1 (Or.inl rfl) rfl, h2.1, h2.2 0 (by decide)⟩

/-- C6.  With the breaker enabled and first reporting a break at poll index
T, both loops poll exactly once per item, at the start of the iteration and
before the item is dispatched.  Free-running loop entered at poll count
polls: if more than T - polls resources remain, exactly the first T - polls
are dispatched, the flag is then observed and the loop returns cancelled
(not an error) having polled T - polls + 1 times; if at most T - polls
remain, all are dispatched, the loop completes and polled exactly once per
resource.  Frame-attached loop: the same with vertices, returning exactly
the dispatches of the first T - polls vertex bodies. -/
theorem c6_cancellation_granularity
    (cfg : Config) (md : MissionDataOpt) (sid : Nat) (ty : ResourceType)
    (cam : Camera) (n : Nat) (mn mx : Int) (TG TBC : Transform)
    (ts : List Int) (poses : List Transform) (total T : Nat)
    (mdf : MissionDataFrame) (tyF : ResourceType)
    (hsig : cfg.sigintEnabled = true)
    (hbrk : ∀ i, cfg.breaker i = decide (T ≤ i))
    (hty : ty = ResourceType.kRawDepthMap ∨
      ty = ResourceType.kOptimizedDepthMap)
    (htyF : tyF = ResourceType.kRawDepthMap ∨
      tyF = ResourceType.kOptimizedDepthMap)
    (hn : 0 < n)
    (hts : ∀ i, i < total → mn ≤ ts.getD i 0 ∧ ts.getD i 0 ≤ mx) :
    (∀ (buf : List (Int × Nat)) (idx polls : Nat),
      idx + buf.length * n ≤ total →
      (∀ sr ∈ buf, (md.getSensorResource ty sid sr.1).isSome) →
      polls ≤ T → T - polls < buf.length →
      (processOptResources cfg md sid ty cam n mn mx TG TBC ts poses total
          buf idx polls).dispatches.length = T - polls ∧
      (processOptResources cfg md sid ty cam n mn mx TG TBC ts poses total
          buf idx polls).flow = Flow.cancelled ∧
      (processOptResources cfg md sid ty cam n mn mx TG TBC ts poses total
          buf idx polls).polls = T + 1) ∧
    (∀ (buf : List (Int × Nat)) (idx polls : Nat),
      idx + buf.length * n ≤ total →
      (∀ sr ∈ buf, (md.getSensorResource ty sid sr.1).isSome) →
      buf.length ≤ T - polls →
      (processOptResources cfg md sid ty cam n mn mx TG TBC ts poses total
          buf idx polls).dispatches.length = buf.length ∧
      (processOptResources cfg md sid ty cam n mn mx TG TBC ts poses total
          buf idx polls).flow = Flow.ok ∧
      (processOptResources cfg md sid ty cam n mn mx TG TBC ts poses total
          buf idx polls).polls = polls + buf.length) ∧
    (∀ (vs : List VertexData) (polls : Nat),
      polls ≤ T → T - polls < vs.length →
      processVertices cfg tyF mdf vs polls =
        ⟨((vs.take (T - polls)).map
            (fun v => (processVertexBody tyF mdf v).1)).flatten,
          T + 1, Flow.cancelled⟩) ∧
    (∀ (vs : List VertexData) (polls : Nat),
      vs.length ≤ T - polls →
      processVertices cfg tyF mdf vs polls =
        ⟨(vs.map (fun v => (processVertexBody tyF mdf v).1)).flatten,
          polls + vs.length, Flow.ok⟩) :=
  ⟨processOptResources_cancelled cfg md sid ty cam n mn mx TG TBC ts poses
      total T hsig hbrk hty hn hts,
   processOptResources_completes cfg md sid ty cam n mn mx TG TBC ts poses
      total T hsig hbrk hty hn hts,
   processVertices_cancelled cfg tyF mdf T hsig hbrk htyF,
   processVertices_completes cfg tyF mdf T hsig hbrk htyF⟩

/-- Witness for C6 at Scenario D of the spec: the flag first set at poll 3
over ten resources yields exactly 3 dispatches and a cancelled loop after 4
polls; over two resources the loop completes with 2 dispatches and 2 polls;
and the same granularity at vertices of the frame-attached loop. -/
theorem c6_cancellation_granularity_witness :
    ((processOptResources cfgBreakAt3 mdTen 0 ResourceType.kRawDepthMap
        camGlobal 1 0 1000 Transform.idT Transform.idT tsTen posesTen 10
        bufTen 0 0).dispatches.length = 3 ∧
      (processOptResources cfgBreakAt3 mdTen 0 ResourceType.kRawDepthMap
        camGlobal 1 0 1000 Transform.idT Transform.idT tsTen posesTen 10
        bufTen 0 0).flow = Flow.cancelled ∧
      (processOptResources cfgBreakAt3 mdTen 0 ResourceType.kRawDepthMap
        camGlobal 1 0 1000 Transform.idT Transform.idT tsTen posesTen 10
        bufTen 0 0).polls = 4) ∧
    ((processOptResources cfgBreakAt3 mdTen 0 ResourceType.kRawDepthMap
        camGlobal 1 0 1000 Transform.idT Transform.idT tsTen posesTen 10
        bufTwo 0 0).dispatches.length = 2 ∧
      (processOptResources cfgBreakAt3 mdTen 0 ResourceType.kRawDepthMap
        camGlobal 1 0 1000 Transform.idT Transform.idT tsTen posesTen 10
        bufTwo 0 0).flow = Flow.ok ∧
      (processOptResources cfgBreakAt3 mdTen 0 ResourceType.kRawDepthMap
        camGlobal 1 0 1000 Transform.idT Transform.idT tsTen posesTen 10
        bufTwo 0 0).polls = 0 + 2) ∧
    (processVertices cfgBreakAt3 ResourceType.kRawDepthMap mdFrameFix vsFour
        0 =
      ⟨((vsFour.take 3).map (fun v => (processVertexBody
          ResourceType.kRawDepthMap mdFrameFix v).1)).flatten,
        4, Flow.cancelled⟩) ∧
    (processVertices cfgBreakAt3 ResourceType.kRawDepthMap mdFrameFix vsTwo
        0 =
      ⟨(vsTwo.map (fun v => (processVertexBody ResourceType.kRawDepthMap
          mdFrameFix v).1)).flatten,
        0 + 2, Flow.ok⟩) := by
  have h := c6_cancellation_granularity cfgBreakAt3 mdTen 0
    ResourceType.kRawDepthMap camGlobal 1 0 1000 Transform.idT Transform.idT
    tsTen posesTen 10 3 mdFrameFix ResourceType.kRawDepthMap rfl
    (fun i => rfl) (Or.inl rfl) (Or.inl rfl) (by decide) (by decide)
  have h1 := h.1 bufTen 0 0 (by decide) (by decide) (by decide) (by decide)
  have h2 := h.2.1 bufTwo 0 0 (by decide) (by decide) (by decide)
  have h3 := h.2.2.1 vsFour 0 (by decide) (by decide)
  have h4 := h.2.2.2 vsTwo 0 (by decide)
  exact ⟨h1, h2, h3, h4⟩

/-- C7.  After the single batched interpolation call for one sensor, the
per-sensor integration aborts fatally -- dispatching nothing -- whenever
the number of returned poses differs from the number of requested
timestamps (number of resources times line count), and otherwise continues
with the normal resource walk. -/
theorem c7_interpolation_length_check (cfg : Config) (env : OptEnv)
    (md : MissionDataOpt) (ty : ResourceType) (mn mx : Int)
    (polls sid : Nat) (buf : List (Int × Nat)) (n : Nat) (ld : Int)
    (ts : List Int)
    (hcam : (env.sensors sid).isNCamera = true)
    (hone : (env.sensors sid).numCameras = 1)
    (hn : n = (if cfg.enableRollingShutterCompensation then
      (env.sensors sid).camera.numberOfLines else 1))
    (hld : ld = (if cfg.enableRollingShutterCompensation then
      (env.sensors sid).camera.lineDelayNanoSeconds else 0))
    (hts : ts = buildResourceTimestamps cfg.timestampShiftNs ld n mn mx
      buf) :
    ((md.getPosesAtTime ts).length ≠ buf.length * n →
      integrateSensor cfg env md ty mn mx polls sid buf =
        ⟨[], polls, Flow.fatalErr⟩) ∧
    ((md.getPosesAtTime ts).length = buf.length * n →
      integrateSensor cfg env md ty mn mx polls sid buf =
        processOptResources cfg md sid ty (env.sensors sid).camera n mn mx
          md.T_G_M
          ((env.sensors sid).T_B_S.comp ((env.sensors sid).T_C_B.inv))
          ts (md.getPosesAtTime ts) (buf.length * n) buf 0 polls) := by
  subst hts
  subst hld
  subst hn
  constructor
  · intro hne
    simp only [integrateSensor, hcam, hone, if_true, if_neg hne]
  · intro heq
    simp only [integrateSensor, hcam, hone, heq, if_true]

/-- Witness for C7: an interpolator that returns no poses for a one-element
request makes the per-sensor integration abort fatally. -/
theorem c7_interpolation_length_check_witness :
    integrateSensor cfgPlain envBadInterp mdBadInterp
        ResourceType.kRawDepthMap 0 1000 0 0 [(500, 7)] =
      ⟨[], 0, Flow.fatalErr⟩ :=
  (c7_interpolation_length_check cfgPlain envBadInterp mdBadInterp
      ResourceType.kRawDepthMap 0 1000 0 0 [(500, 7)] 1 0 [500] (by decide)
      (by decide) (by decide) (by decide) (by decide)).1 (by decide)

end DepthIntegration
